import Mathlib

/-!
Verification development for the parking-slot reservation system.

The definitions below are a shallow embedding of the Python sources:
`database.py` (SQLite backend), `database_postgres.py` (PostgreSQL backend)
and the fee-calculation functions of `app.py`.  Database tables are modelled
as Lean lists kept in rowid (insertion) order; nondeterministic inputs of the
code (the freshly generated `booking_reference` from `secrets.token_hex` and
the wall-clock `booking_time` / hour from `datetime.now()`) are passed as
explicit parameters.  The `UNIQUE` column constraint on
`bookings.booking_reference` declared in the schema is enforced at insertion
time, exactly as SQLite/PostgreSQL would: an insert that violates it raises,
the surrounding transaction rolls back, and the exception propagates
(modelled as a `fault` result with the state unchanged).
-/

set_option maxRecDepth 16384

namespace Parking

/-- A row of the `slots` table: id, slot_type, slot_name, price, is_booked. -/
structure Slot where
  id : Nat
  slot_type : String
  slot_name : String
  price : Int
  is_booked : Bool
deriving Repr, DecidableEq

/-- A row of the `bookings` table (the unused surrogate `id` column is
omitted; rows are kept in insertion order). -/
structure Booking where
  slot_id : Nat
  user_id : Option Nat
  booking_time : Nat
  booking_reference : String
  total_amount : Int
  status : String
deriving Repr, DecidableEq

/-- The persistent database state: the `slots` and `bookings` tables, each as
a list in rowid order. -/
structure DBState where
  slots : List Slot
  bookings : List Booking
deriving Repr, DecidableEq

/-- Python's `f"{n:02d}"` for the executive slot names. -/
def pad2 (n : Nat) : String :=
  if n < 10 then "0" ++ toString n else toString n

/-- `populate_slots` of `database.py`: the `(slot_type, slot_name, price)`
triples inserted into the `slots` table, in insertion order:
vip `V1..V10` at 500, executive `E{row:02d}{col:02d}` for row 1..5 and
col 1..20 at 350, normal `N1..N11` at 320. -/
def populate_slots : List (String × String × Int) :=
  ((List.range' 1 10).map (fun i => ("vip", "V" ++ toString i, (500 : Int))))
    ++ ((List.range' 1 5).flatMap (fun row =>
          (List.range' 1 20).map (fun col =>
            ("executive", "E" ++ pad2 row ++ pad2 col, (350 : Int)))))
    ++ ((List.range' 1 11).map (fun i => ("normal", "N" ++ toString i, (320 : Int))))

/-- Assign AUTOINCREMENT ids 1,2,... to the inserted rows, none booked. -/
def assignIds : Nat → List (String × String × Int) → List Slot
  | _, [] => []
  | n, (t, name, p) :: rest => ⟨n, t, name, p, false⟩ :: assignIds (n + 1) rest

/-- `init_db` of `database.py` on an empty database: the freshly populated
catalog and an empty `bookings` table. -/
def init_db : DBState :=
  ⟨assignIds 1 populate_slots, []⟩

/-- Result of `book_slots`: a structured success dict, a structured
`success: False` dict, or an unhandled exception escaping the call (the
transaction having been rolled back). -/
inductive BookResult where
  | ok (message : String) (booked_count : Nat) (price : Int) (booking_reference : String)
  | err (message : String)
  | fault (message : String)
deriving Repr, DecidableEq

/-- The first query of `book_slots`: names of requested slots of the given
type that are already booked, in table (id) order. -/
def alreadyBookedNames (st : DBState) (slot_type : String) (slots_to_book : List String) :
    List String :=
  (st.slots.filter (fun s =>
    slots_to_book.contains s.slot_name && s.slot_type == slot_type && s.is_booked)).map
    (fun s => s.slot_name)

/-- The second query of `book_slots`: the requested slots that resolve to an
existing slot of the given type, in table (id) order.  (`slot_name` is UNIQUE
in the table, so `IN` yields one row per matching distinct name.) -/
def resolvedSlots (st : DBState) (slot_type : String) (slots_to_book : List String) :
    List Slot :=
  st.slots.filter (fun s => slots_to_book.contains s.slot_name && s.slot_type == slot_type)

/-- Sequential insertion into the `bookings` table, enforcing the schema's
`booking_reference TEXT UNIQUE` column constraint: each row is checked
against the table as grown so far, and a violation aborts (the transaction
then rolls back). -/
def insertBookings (table : List Booking) : List Booking → Option (List Booking)
  | [] => some table
  | b :: rest =>
      if table.any (fun b0 => b0.booking_reference == b.booking_reference) then none
      else insertBookings (table ++ [b]) rest

/-- `slot_ids` of `book_slots`: ids of the resolved slots, in table order. -/
def slotIds (st : DBState) (slot_type : String) (slots_to_book : List String) : List Nat :=
  (resolvedSlots st slot_type slots_to_book).map (fun s => s.id)

/-- `bookings_to_insert` of `book_slots`: one booking row per resolved slot,
all sharing the reference, the amount and the time. -/
def bookingRows (st : DBState) (slot_type : String) (slots_to_book : List String)
    (user_id : Option Nat) (total_amount : Int)
    (booking_reference : String) (booking_time : Nat) : List Booking :=
  (slotIds st slot_type slots_to_book).map (fun sid =>
    Booking.mk sid user_id booking_time booking_reference total_amount "active")

/-- `book_slots` of `database.py`.  `booking_reference` and `booking_time`
stand for the `secrets.token_hex(8).upper()` and `datetime.now()` values
drawn inside the call. -/
def book_slots (st : DBState) (slot_type : String) (slots_to_book : List String)
    (user_id : Option Nat) (total_amount : Int)
    (booking_reference : String) (booking_time : Nat) : BookResult × DBState :=
  if slots_to_book.isEmpty then
    (.err "No slots provided", st)
  else if ¬ (alreadyBookedNames st slot_type slots_to_book).isEmpty then
    (.err ("Slots already booked: " ++
       String.intercalate ", " (alreadyBookedNames st slot_type slots_to_book)), st)
  else
    match resolvedSlots st slot_type slots_to_book with
    | [] => (.err "Invalid slots", st)
    | first :: _ =>
        match insertBookings st.bookings
            (bookingRows st slot_type slots_to_book user_id total_amount
              booking_reference booking_time) with
        | none =>
            (.fault "IntegrityError: UNIQUE constraint on bookings.booking_reference", st)
        | some newTable =>
            (.ok ("Successfully booked " ++ toString slots_to_book.length ++ " slots")
               slots_to_book.length first.price booking_reference,
             { st with
                 slots := st.slots.map (fun s =>
                   if (slotIds st slot_type slots_to_book).contains s.id
                   then { s with is_booked := true } else s),
                 bookings := newTable })

/-- `reset_all_bookings` of `database.py`: clear every `is_booked` flag,
delete all booking rows, and report success. -/
def reset_all_bookings (st : DBState) : (Bool × String) × DBState :=
  ((true, "All bookings reset"),
   { st with slots := st.slots.map (fun s => { s with is_booked := false }),
             bookings := [] })

/-- One tier's row of `get_booking_stats`: total, booked, available counts. -/
structure TierStats where
  total : Nat
  booked : Nat
  available : Nat
deriving Repr, DecidableEq

/-- `get_booking_stats` of `database.py`, as a function of the tier queried
(the SQL groups by `slot_type`; a tier with no slots yields the empty
group's zero counts). -/
def get_booking_stats (st : DBState) (slot_type : String) : TierStats :=
  let rows := st.slots.filter (fun s => s.slot_type == slot_type)
  ⟨rows.length,
   (rows.filter (fun s => s.is_booked)).length,
   (rows.filter (fun s => !s.is_booked)).length⟩

/-- Lexicographic comparison of character lists by code point — the byte
order SQLite's memcmp TEXT comparison and PostgreSQL's C collation use on
these ASCII slot names. -/
def charListLt : List Char → List Char → Bool
  | [], [] => false
  | [], _ :: _ => true
  | _ :: _, [] => false
  | a :: as, b :: bs =>
      if a.val.toNat < b.val.toNat then true
      else if b.val.toNat < a.val.toNat then false
      else charListLt as bs

/-- Strict lexicographic order on strings. -/
def strLt (a b : String) : Bool :=
  charListLt a.data b.data

/-- Lexicographic order on strings. -/
def strLe (a b : String) : Bool :=
  !(strLt b a)

/-- SQLite `ORDER BY slot_type, id` of `get_parking_status` in `database.py`. -/
def slotOrderById (s t : Slot) : Prop :=
  strLt s.slot_type t.slot_type = true ∨ (s.slot_type = t.slot_type ∧ s.id ≤ t.id)

instance : DecidableRel slotOrderById := fun s t =>
  inferInstanceAs (Decidable (strLt s.slot_type t.slot_type = true ∨
    (s.slot_type = t.slot_type ∧ s.id ≤ t.id)))

/-- PostgreSQL `ORDER BY slot_type, slot_name` of `get_parking_status` in
`database_postgres.py`. -/
def slotOrderByName (s t : Slot) : Prop :=
  strLt s.slot_type t.slot_type = true ∨
    (s.slot_type = t.slot_type ∧ strLe s.slot_name t.slot_name = true)

instance : DecidableRel slotOrderByName := fun s t =>
  inferInstanceAs (Decidable (strLt s.slot_type t.slot_type = true ∨
    (s.slot_type = t.slot_type ∧ strLe s.slot_name t.slot_name = true)))

/-- One tier's entry in the status dict: `price`, `slots`, `booked`. -/
structure TierStatus where
  price : Int
  slots : List String
  booked : List String
deriving Repr, DecidableEq

/-- The status dict built by `get_parking_status` (keys `vip`, `executive`,
`normal`). -/
structure ParkingStatus where
  vip : TierStatus
  executive : TierStatus
  normal : TierStatus
deriving Repr, DecidableEq

/-- The initial `status` dict literal of `get_parking_status`. -/
def emptyStatus : ParkingStatus :=
  ⟨⟨500, [], []⟩, ⟨350, [], []⟩, ⟨320, [], []⟩⟩

/-- The loop body of `get_parking_status`: append the row's name to its
tier's `slots` list and, when booked, to its `booked` list. -/
def addStatusRow (acc : ParkingStatus) (s : Slot) : ParkingStatus :=
  if s.slot_type == "vip" then
    { acc with vip := ⟨acc.vip.price, acc.vip.slots ++ [s.slot_name],
        if s.is_booked then acc.vip.booked ++ [s.slot_name] else acc.vip.booked⟩ }
  else if s.slot_type == "executive" then
    { acc with executive := ⟨acc.executive.price, acc.executive.slots ++ [s.slot_name],
        if s.is_booked then acc.executive.booked ++ [s.slot_name] else acc.executive.booked⟩ }
  else if s.slot_type == "normal" then
    { acc with normal := ⟨acc.normal.price, acc.normal.slots ++ [s.slot_name],
        if s.is_booked then acc.normal.booked ++ [s.slot_name] else acc.normal.booked⟩ }
  else acc

/-- `get_parking_status` of `database.py`: rows ordered by
`slot_type, id`, folded into the status dict. -/
def get_parking_status (st : DBState) : ParkingStatus :=
  (List.insertionSort slotOrderById st.slots).foldl addStatusRow emptyStatus

/-- One slot entry inside a grouped booking returned by the lookup
functions. -/
structure SlotInfo where
  slot_name : String
  slot_type : String
  price : Int
deriving Repr, DecidableEq

/-- One grouped logical booking returned by `get_user_bookings` /
`get_booking_by_reference`. -/
structure UserBooking where
  booking_reference : String
  booking_time : Nat
  total_amount : Int
  status : String
  slots : List SlotInfo
deriving Repr, DecidableEq

/-- The `JOIN slots s ON b.slot_id = s.id` row lookup. -/
def findSlot (slots : List Slot) (sid : Nat) : Option Slot :=
  slots.find? (fun s => s.id == sid)

/-- The joined rows of `get_user_bookings` before `ORDER BY`: the user's
booking rows, each paired with its slot, in `bookings`-table order. -/
def userRows (st : DBState) (uid : Nat) : List (Booking × Slot) :=
  (st.bookings.filter (fun b => b.user_id == some uid)).filterMap
    (fun b => (findSlot st.slots b.slot_id).map (fun s => (b, s)))

/-- `ORDER BY booking_time DESC` on the joined rows. -/
def timeDescOrder (a b : Booking × Slot) : Prop :=
  b.1.booking_time ≤ a.1.booking_time

instance : DecidableRel timeDescOrder := fun a b =>
  Nat.decLe b.1.booking_time a.1.booking_time

instance : IsTotal (Booking × Slot) timeDescOrder :=
  ⟨fun a b => le_total b.1.booking_time a.1.booking_time⟩

instance : IsTrans (Booking × Slot) timeDescOrder :=
  ⟨fun _ _ _ h1 h2 => le_trans h2 h1⟩

/-- The slot-info dict built for each joined row. -/
def rowInfo (r : Booking × Slot) : SlotInfo :=
  ⟨r.2.slot_name, r.2.slot_type, r.2.price⟩

/-- The grouping loop body of `get_user_bookings`: dicts keep insertion
order, so a new reference appends a fresh group and a known reference
appends the row's slot to its group. -/
def addRowToGroups (groups : List UserBooking) (r : Booking × Slot) : List UserBooking :=
  if groups.any (fun g => g.booking_reference == r.1.booking_reference) then
    groups.map (fun g =>
      if g.booking_reference == r.1.booking_reference then
        { g with slots := g.slots ++ [rowInfo r] }
      else g)
  else
    groups ++ [⟨r.1.booking_reference, r.1.booking_time, r.1.total_amount, r.1.status,
               [rowInfo r]⟩]

/-- `get_user_bookings` of `database.py`: the user's joined rows, newest
first, grouped by `booking_reference`. -/
def get_user_bookings (st : DBState) (uid : Nat) : List UserBooking :=
  (List.insertionSort timeDescOrder (userRows st uid)).foldl addRowToGroups []

/-- The joined rows of `get_booking_by_reference`, in `bookings`-table
order. -/
def referenceRows (st : DBState) (ref : String) : List (Booking × Slot) :=
  (st.bookings.filter (fun b => b.booking_reference == ref)).filterMap
    (fun b => (findSlot st.slots b.slot_id).map (fun s => (b, s)))

/-- `get_booking_by_reference` of `database.py`. -/
def get_booking_by_reference (st : DBState) (ref : String) : Option UserBooking :=
  match referenceRows st ref with
  | [] => none
  | first :: rest =>
      some ⟨first.1.booking_reference, first.1.booking_time, first.1.total_amount,
            first.1.status, (first :: rest).map rowInfo⟩

/-! Fee calculation, from `app.py`.  The current wall-clock hour read by
`datetime.now().hour` is passed explicitly as `hour`. -/

/-- `calculate_platform_fee` of `app.py`: static fee of 18. -/
def calculate_platform_fee (_base_amount : Int) : Int := 18

/-- `is_midnight_to_5am` of `app.py`: `0 <= current_hour < 5`. -/
def is_midnight_to_5am (hour : Nat) : Bool :=
  decide (0 ≤ hour ∧ hour < 5)

/-- `calculate_night_surcharge` of `app.py`: 12 during the night window,
otherwise 0. -/
def calculate_night_surcharge (_base_amount : Int) (hour : Nat) : Int :=
  if is_midnight_to_5am hour then 12 else 0

/-- The fee-breakdown dict returned by `calculate_total_fees`. -/
structure FeeBreakdown where
  base_amount : Int
  platform_fee : Int
  night_surcharge : Int
  total_fees : Int
  grand_total : Int
  is_night_time : Bool
deriving Repr, DecidableEq

/-- `calculate_total_fees` of `app.py`. -/
def calculate_total_fees (base_amount : Int) (hour : Nat) : FeeBreakdown :=
  let platform_fee := calculate_platform_fee base_amount
  let night_surcharge := calculate_night_surcharge base_amount hour
  { base_amount := base_amount
    platform_fee := platform_fee
    night_surcharge := night_surcharge
    total_fees := platform_fee + night_surcharge
    grand_total := base_amount + platform_fee + night_surcharge
    is_night_time := is_midnight_to_5am hour }

/-! The PostgreSQL backend of `database_postgres.py`, prefixed `pg_`.  Its
schema declares the same tables and the same `UNIQUE` constraint on
`bookings.booking_reference`; `pg_book_slots` inserts the booking rows in a
row-by-row loop with the identical outcome.  The sole difference in query
logic is `get_parking_status`, which orders by `slot_type, slot_name`
instead of `slot_type, id`.  `reset_all_bookings` is wrapped in a
`try/except` returning a structured failure, but the operations inside it
are total in this model, so only the success branch is reachable. -/

/-- `get_parking_status` of `database_postgres.py`: rows ordered by
`slot_type, slot_name`, folded into the same status dict. -/
def pg_get_parking_status (st : DBState) : ParkingStatus :=
  (List.insertionSort slotOrderByName st.slots).foldl addStatusRow emptyStatus

/-- `book_slots` of `database_postgres.py`. -/
def pg_book_slots (st : DBState) (slot_type : String) (slots_to_book : List String)
    (user_id : Option Nat) (total_amount : Int)
    (booking_reference : String) (booking_time : Nat) : BookResult × DBState :=
  if slots_to_book.isEmpty then
    (.err "No slots provided", st)
  else if ¬ (alreadyBookedNames st slot_type slots_to_book).isEmpty then
    (.err ("Slots already booked: " ++
       String.intercalate ", " (alreadyBookedNames st slot_type slots_to_book)), st)
  else
    match resolvedSlots st slot_type slots_to_book with
    | [] => (.err "Invalid slots", st)
    | first :: _ =>
        match insertBookings st.bookings
            (bookingRows st slot_type slots_to_book user_id total_amount
              booking_reference booking_time) with
        | none =>
            (.fault "IntegrityError: UNIQUE constraint on bookings.booking_reference", st)
        | some newTable =>
            (.ok ("Successfully booked " ++ toString slots_to_book.length ++ " slots")
               slots_to_book.length first.price booking_reference,
             { st with
                 slots := st.slots.map (fun s =>
                   if (slotIds st slot_type slots_to_book).contains s.id
                   then { s with is_booked := true } else s),
                 bookings := newTable })

/-- `reset_all_bookings` of `database_postgres.py` (success branch of its
`try/except`; no operation inside can fail in this model). -/
def pg_reset_all_bookings (st : DBState) : (Bool × String) × DBState :=
  ((true, "All bookings reset"),
   { st with slots := st.slots.map (fun s => { s with is_booked := false }),
             bookings := [] })

/-- `get_booking_stats` of `database_postgres.py`. -/
def pg_get_booking_stats (st : DBState) (slot_type : String) : TierStats :=
  let rows := st.slots.filter (fun s => s.slot_type == slot_type)
  ⟨rows.length,
   (rows.filter (fun s => s.is_booked)).length,
   (rows.filter (fun s => !s.is_booked)).length⟩

/-- `get_user_bookings` of `database_postgres.py`. -/
def pg_get_user_bookings (st : DBState) (uid : Nat) : List UserBooking :=
  (List.insertionSort timeDescOrder (userRows st uid)).foldl addRowToGroups []

/-- `get_booking_by_reference` of `database_postgres.py`. -/
def pg_get_booking_by_reference (st : DBState) (ref : String) : Option UserBooking :=
  match referenceRows st ref with
  | [] => none
  | first :: rest =>
      some ⟨first.1.booking_reference, first.1.booking_time, first.1.total_amount,
            first.1.status, (first :: rest).map rowInfo⟩

/-- States reachable from the initial catalog by successful `book_slots`
calls and `reset_all_bookings` calls. -/
inductive Reach : DBState → Prop where
  | init : Reach init_db
  | book {st : DBState} (slot_type : String) (slots_to_book : List String)
      (user_id : Option Nat) (total_amount : Int)
      (booking_reference : String) (booking_time : Nat)
      {msg : String} {cnt : Nat} {price : Int} {r : String} :
      Reach st →
      (book_slots st slot_type slots_to_book user_id total_amount
        booking_reference booking_time).1 = .ok msg cnt price r →
      Reach (book_slots st slot_type slots_to_book user_id total_amount
        booking_reference booking_time).2
  | reset {st : DBState} : Reach st → Reach (reset_all_bookings st).2

/-- The occupancy/booking correspondence: a slot is occupied exactly when an
active booking row references it. -/
def OccupancyInvariant (st : DBState) : Prop :=
  ∀ s ∈ st.slots,
    (s.is_booked = true ↔ ∃ b ∈ st.bookings, b.slot_id = s.id ∧ b.status = "active")

/-- A concrete reachable test state: the initial catalog after a successful
single-slot booking of V1. -/
def exampleBookedState : DBState :=
  (book_slots init_db "vip" ["V1"] (some 1) 518 "R1TESTREFERENCE1" 0).2

/-- The slot list stored for a reference in an accumulated group list
(empty when the reference has no group yet); used to characterize the
grouping fold of `get_user_bookings`. -/
def slotsOf (acc : List UserBooking) (ρ : String) : List SlotInfo :=
  ((acc.find? (fun g => g.booking_reference == ρ)).map (fun g => g.slots)).getD []

/-! ### Helper lemmas -/

theorem insertBookings_eq_append (l : List Booking) (t t' : List Booking)
    (h : insertBookings t l = some t') : t' = t ++ l := by
  induction l generalizing t with
  | nil =>
      simp only [insertBookings, Option.some.injEq] at h
      simp [← h]
  | cons b rest ih =>
      rw [insertBookings] at h
      split at h
      · exact absurd h (by simp)
      · have := ih (t ++ [b]) h
        simp [this]

theorem book_slots_ok_spec (st : DBState) (tier : String) (names : List String)
    (uid : Option Nat) (amt : Int) (ref : String) (time : Nat)
    (msg : String) (cnt : Nat) (price : Int) (r : String)
    (h : (book_slots st tier names uid amt ref time).1 = .ok msg cnt price r) :
    cnt = names.length ∧
    msg = "Successfully booked " ++ toString names.length ++ " slots" ∧
    r = ref ∧
    (book_slots st tier names uid amt ref time).2 =
      ⟨st.slots.map (fun s =>
          if (slotIds st tier names).contains s.id
          then { s with is_booked := true } else s),
       st.bookings ++ bookingRows st tier names uid amt ref time⟩ := by
  rw [book_slots] at h ⊢
  by_cases h0 : names.isEmpty
  · simp only [if_pos h0] at h
    exact absurd h (by simp)
  · simp only [if_neg h0] at h ⊢
    by_cases h1 : ¬ (alreadyBookedNames st tier names).isEmpty
    · simp only [if_pos h1] at h
      exact absurd h (by simp)
    · simp only [if_neg h1] at h ⊢
      cases hres : resolvedSlots st tier names with
      | nil =>
          simp only [hres] at h
          exact absurd h (by simp)
      | cons first rest =>
          simp only [hres] at h ⊢
          cases hins : insertBookings st.bookings (bookingRows st tier names uid amt ref time) with
          | none =>
              simp only [hins] at h
              exact absurd h (by simp)
          | some newTable =>
              simp only [hins] at h ⊢
              simp only [BookResult.ok.injEq] at h
              obtain ⟨hmsg, hcnt, hprice, hr⟩ := h
              have happ := insertBookings_eq_append _ _ _ hins
              exact ⟨hcnt.symm, hmsg.symm, hr.symm, by simp [happ]⟩

/-! ### Claim theorems -/

/-- C3: for every base amount and hour, the fee breakdown has
`platform_fee = 18`, `night_surcharge = 12` iff `0 <= h < 5` (else 0),
`grand_total = base_amount + platform_fee + night_surcharge` exactly, and
`is_night_time` true iff `0 <= h < 5`; the breakdown is a pure function of
`(base_amount, hour)`. -/
theorem C3_fee_breakdown (base_amount : Int) (hour : Nat) :
    (calculate_total_fees base_amount hour).platform_fee = 18 ∧
    (calculate_total_fees base_amount hour).night_surcharge =
      (if 0 ≤ hour ∧ hour < 5 then (12 : Int) else 0) ∧
    (calculate_total_fees base_amount hour).total_fees =
      (calculate_total_fees base_amount hour).platform_fee +
        (calculate_total_fees base_amount hour).night_surcharge ∧
    (calculate_total_fees base_amount hour).grand_total =
      base_amount + (calculate_total_fees base_amount hour).platform_fee +
        (calculate_total_fees base_amount hour).night_surcharge ∧
    ((calculate_total_fees base_amount hour).is_night_time = true ↔
      (0 ≤ hour ∧ hour < 5)) := by
  unfold calculate_total_fees calculate_night_surcharge calculate_platform_fee
    is_midnight_to_5am
  by_cases hh : (0 ≤ hour ∧ hour < 5) <;> simp [hh]

/-- C7: initialization creates exactly the fixed catalog of 121 slots with
ids 1..121 — 10 vip `V1..V10` at 500, 100 executive `E0101..E0520` at 350,
11 normal `N1..N11` at 320 — each initially unoccupied. -/
theorem C7_initial_catalog :
    init_db.slots.map (fun s => (s.slot_type, s.slot_name, s.price)) =
      [("vip", "V1", 500), ("vip", "V2", 500), ("vip", "V3", 500), ("vip", "V4", 500),
       ("vip", "V5", 500), ("vip", "V6", 500), ("vip", "V7", 500), ("vip", "V8", 500),
       ("vip", "V9", 500), ("vip", "V10", 500), ("executive", "E0101", 350), ("executive", "E0102", 350),
       ("executive", "E0103", 350), ("executive", "E0104", 350), ("executive", "E0105", 350), ("executive", "E0106", 350),
       ("executive", "E0107", 350), ("executive", "E0108", 350), ("executive", "E0109", 350), ("executive", "E0110", 350),
       ("executive", "E0111", 350), ("executive", "E0112", 350), ("executive", "E0113", 350), ("executive", "E0114", 350),
       ("executive", "E0115", 350), ("executive", "E0116", 350), ("executive", "E0117", 350), ("executive", "E0118", 350),
       ("executive", "E0119", 350), ("executive", "E0120", 350), ("executive", "E0201", 350), ("executive", "E0202", 350),
       ("executive", "E0203", 350), ("executive", "E0204", 350), ("executive", "E0205", 350), ("executive", "E0206", 350),
       ("executive", "E0207", 350), ("executive", "E0208", 350), ("executive", "E0209", 350), ("executive", "E0210", 350),
       ("executive", "E0211", 350), ("executive", "E0212", 350), ("executive", "E0213", 350), ("executive", "E0214", 350),
       ("executive", "E0215", 350), ("executive", "E0216", 350), ("executive", "E0217", 350), ("executive", "E0218", 350),
       ("executive", "E0219", 350), ("executive", "E0220", 350), ("executive", "E0301", 350), ("executive", "E0302", 350),
       ("executive", "E0303", 350), ("executive", "E0304", 350), ("executive", "E0305", 350), ("executive", "E0306", 350),
       ("executive", "E0307", 350), ("executive", "E0308", 350), ("executive", "E0309", 350), ("executive", "E0310", 350),
       ("executive", "E0311", 350), ("executive", "E0312", 350), ("executive", "E0313", 350), ("executive", "E0314", 350),
       ("executive", "E0315", 350), ("executive", "E0316", 350), ("executive", "E0317", 350), ("executive", "E0318", 350),
       ("executive", "E0319", 350), ("executive", "E0320", 350), ("executive", "E0401", 350), ("executive", "E0402", 350),
       ("executive", "E0403", 350), ("executive", "E0404", 350), ("executive", "E0405", 350), ("executive", "E0406", 350),
       ("executive", "E0407", 350), ("executive", "E0408", 350), ("executive", "E0409", 350), ("executive", "E0410", 350),
       ("executive", "E0411", 350), ("executive", "E0412", 350), ("executive", "E0413", 350), ("executive", "E0414", 350),
       ("executive", "E0415", 350), ("executive", "E0416", 350), ("executive", "E0417", 350), ("executive", "E0418", 350),
       ("executive", "E0419", 350), ("executive", "E0420", 350), ("executive", "E0501", 350), ("executive", "E0502", 350),
       ("executive", "E0503", 350), ("executive", "E0504", 350), ("executive", "E0505", 350), ("executive", "E0506", 350),
       ("executive", "E0507", 350), ("executive", "E0508", 350), ("executive", "E0509", 350), ("executive", "E0510", 350),
       ("executive", "E0511", 350), ("executive", "E0512", 350), ("executive", "E0513", 350), ("executive", "E0514", 350),
       ("executive", "E0515", 350), ("executive", "E0516", 350), ("executive", "E0517", 350), ("executive", "E0518", 350),
       ("executive", "E0519", 350), ("executive", "E0520", 350), ("normal", "N1", 320), ("normal", "N2", 320),
       ("normal", "N3", 320), ("normal", "N4", 320), ("normal", "N5", 320), ("normal", "N6", 320),
       ("normal", "N7", 320), ("normal", "N8", 320), ("normal", "N9", 320), ("normal", "N10", 320),
       ("normal", "N11", 320)] ∧
    init_db.slots.map (fun s => s.id) = List.range' 1 121 ∧
    init_db.slots.length = 121 ∧
    (init_db.slots.filter (fun s => s.slot_type == "vip")).length = 10 ∧
    (init_db.slots.filter (fun s => s.slot_type == "executive")).length = 100 ∧
    (init_db.slots.filter (fun s => s.slot_type == "normal")).length = 11 ∧
    ∀ s ∈ init_db.slots, s.is_booked = false := by
  refine ⟨?_, ?_, ?_, ?_, ?_, ?_, ?_⟩ <;> decide

/-- C1: evaluating `book_slots` on two distinct free vip slots of the fresh
catalog: the `UNIQUE` constraint on `bookings.booking_reference` rejects the
second inserted row, the transaction rolls back (state unchanged), and the
call ends in an unhandled `IntegrityError` instead of the structured success
with one persisted row per slot that the claim requires. -/
theorem C1_multi_slot_booking_faults :
    book_slots init_db "vip" ["V1", "V2"] (some 1) 1018 "0A1B2C3D4E5F6071" 0 =
      (.fault "IntegrityError: UNIQUE constraint on bookings.booking_reference",
       init_db) := by
  decide

/-- C6: `reset_all_bookings` followed by `get_booking_stats` yields
`booked = 0` and `available = total` for every tier, and the reset discards
all booking records. -/
theorem C6_reset_then_stats (st : DBState) (tier : String) :
    (get_booking_stats (reset_all_bookings st).2 tier).booked = 0 ∧
    (get_booking_stats (reset_all_bookings st).2 tier).available =
      (get_booking_stats (reset_all_bookings st).2 tier).total ∧
    (reset_all_bookings st).2.bookings = [] := by
  refine ⟨?_, ?_, rfl⟩ <;>
    simp [get_booking_stats, reset_all_bookings, List.filter_map, Function.comp_def]

/-- C2 counterexample: requesting `["V1", "ZZZ"]` as vip on the fresh
catalog — `"ZZZ"` resolves to no slot — does not fail with the
invalid-slots error: the call succeeds, reports two booked slots, and
mutates state by occupying V1 (a partial booking). -/
theorem C2_counterexample_partial_booking :
    (book_slots init_db "vip" ["V1", "ZZZ"] (some 1) 1018 "AB12CD34EF56AB78" 0).1 =
      .ok "Successfully booked 2 slots" 2 500 "AB12CD34EF56AB78" ∧
    ((book_slots init_db "vip" ["V1", "ZZZ"] (some 1) 1018 "AB12CD34EF56AB78" 0).2.slots.filter
        (fun s => s.is_booked)).map (fun s => s.slot_name) = ["V1"] := by
  exact ⟨by decide, by decide⟩

/-- C2 amended: only when NO requested name resolves to an existing slot of
the requested tier does the call fail with "Invalid slots", and then nothing
is changed; a mix of resolving and non-resolving names is not rejected. -/
theorem C2_amended_invalid_slots (st : DBState) (tier : String) (names : List String)
    (uid : Option Nat) (amt : Int) (ref : String) (time : Nat)
    (hne : names ≠ [])
    (hnores : ∀ s ∈ st.slots, ¬ (s.slot_name ∈ names ∧ s.slot_type = tier)) :
    book_slots st tier names uid amt ref time = (.err "Invalid slots", st) := by
  have hres : resolvedSlots st tier names = [] := by
    rw [resolvedSlots, List.filter_eq_nil_iff]
    intro s hs
    simp only [Bool.and_eq_true, beq_iff_eq, not_and]
    intro hc ht
    exact hnores s hs ⟨List.elem_iff.mp hc, ht⟩
  have habn : alreadyBookedNames st tier names = [] := by
    rw [alreadyBookedNames]
    have hf : st.slots.filter (fun s =>
        names.contains s.slot_name && s.slot_type == tier && s.is_booked) = [] := by
      rw [List.filter_eq_nil_iff]
      intro s hs
      simp only [Bool.and_eq_true, beq_iff_eq, not_and]
      intro hct hb
      exact absurd ⟨List.elem_iff.mp hct.1, hct.2⟩ (hnores s hs)
    rw [hf, List.map_nil]
  rw [book_slots]
  rw [if_neg (by simp [hne]), if_neg (by simp [habn]), hres]

/-- C2 amended, witness: requesting the unknown name `"Z9"` as vip on the
fresh catalog fails with "Invalid slots" and leaves the state unchanged. -/
theorem C2_amended_witness :
    (["Z9"] : List String) ≠ [] ∧
    (∀ s ∈ init_db.slots, ¬ (s.slot_name ∈ (["Z9"] : List String) ∧ s.slot_type = "vip")) ∧
    book_slots init_db "vip" ["Z9"] (some 1) 338 "AB12CD34EF56AB79" 0 =
      (.err "Invalid slots", init_db) := by
  refine ⟨by decide, by decide, ?_⟩
  exact C2_amended_invalid_slots init_db "vip" ["Z9"] (some 1) 338 "AB12CD34EF56AB79" 0
    (by decide) (by decide)

/-- C10: whenever `book_slots` succeeds, it reports `booked_count` equal to
the length of the request list (duplicates counted) and a success message
with that count, while the number of persisted booking rows equals the
number of distinct resolved slots. -/
theorem C10_success_counts_request_length (st : DBState) (tier : String)
    (names : List String) (uid : Option Nat) (amt : Int) (ref : String) (time : Nat)
    (msg : String) (cnt : Nat) (price : Int) (r : String)
    (h : (book_slots st tier names uid amt ref time).1 = .ok msg cnt price r) :
    cnt = names.length ∧
    msg = "Successfully booked " ++ toString names.length ++ " slots" ∧
    (book_slots st tier names uid amt ref time).2.bookings.length =
      st.bookings.length + (resolvedSlots st tier names).length := by
  obtain ⟨h1, h2, _, h4⟩ := book_slots_ok_spec _ _ _ _ _ _ _ _ _ _ _ h
  refine ⟨h1, h2, ?_⟩
  rw [h4]
  simp [bookingRows, slotIds]

/-- C10 witness: requesting `["V1", "V1"]` on the fresh catalog succeeds,
reports `booked_count = 2` (the request length), yet persists exactly one
booking row because only one distinct slot resolves. -/
theorem C10_witness :
    (book_slots init_db "vip" ["V1", "V1"] (some 1) 1018 "AAAA111122223333" 0).1 =
      .ok "Successfully booked 2 slots" 2 500 "AAAA111122223333" ∧
    (2 : Nat) = (["V1", "V1"] : List String).length ∧
    (book_slots init_db "vip" ["V1", "V1"] (some 1) 1018 "AAAA111122223333" 0).2.bookings.length =
      init_db.bookings.length + (resolvedSlots init_db "vip" ["V1", "V1"]).length ∧
    (resolvedSlots init_db "vip" ["V1", "V1"]).length = 1 := by
  have h : (book_slots init_db "vip" ["V1", "V1"] (some 1) 1018 "AAAA111122223333" 0).1 =
      .ok "Successfully booked 2 slots" 2 500 "AAAA111122223333" := by decide
  have hc := C10_success_counts_request_length init_db "vip" ["V1", "V1"] (some 1) 1018
    "AAAA111122223333" 0 "Successfully booked 2 slots" 2 500 "AAAA111122223333" h
  exact ⟨h, hc.1, hc.2.2, by decide⟩

/-- C5: in every state reachable from the initial catalog by successful
`book_slots` calls and `reset_all_bookings` calls, a slot is occupied iff
some active booking row references it. -/
theorem C5_occupancy_invariant (st : DBState) (h : Reach st) : OccupancyInvariant st := by
  induction h with
  | init =>
      unfold OccupancyInvariant
      decide
  | @book s0 tier names uid amt ref time msg cnt price r hreach hok ih =>
      obtain ⟨-, -, -, hstate⟩ := book_slots_ok_spec _ _ _ _ _ _ _ _ _ _ _ hok
      rw [hstate]
      intro s' hs'
      simp only [List.mem_map] at hs'
      obtain ⟨s, hs, rfl⟩ := hs'
      have hsinv := ih s hs
      by_cases hid : (slotIds s0 tier names).contains s.id = true
      · simp only [if_pos hid]
        constructor
        · intro _
          refine ⟨⟨s.id, uid, time, ref, amt, "active"⟩, ?_, rfl, rfl⟩
          apply List.mem_append_right
          rw [bookingRows]
          exact List.mem_map.mpr ⟨s.id, List.elem_iff.mp hid, rfl⟩
        · intro _
          trivial
      · simp only [if_neg hid]
        rw [hsinv]
        constructor
        · rintro ⟨b, hb, hbid, hbst⟩
          exact ⟨b, List.mem_append_left _ hb, hbid, hbst⟩
        · rintro ⟨b, hb, hbid, hbst⟩
          rcases List.mem_append.mp hb with hb' | hb'
          · exact ⟨b, hb', hbid, hbst⟩
          · exfalso
            rw [bookingRows] at hb'
            obtain ⟨sid, hsid, rfl⟩ := List.mem_map.mp hb'
            exact hid (List.elem_iff.mpr (hbid ▸ hsid))
  | reset hreach ih =>
      intro s' hs'
      simp only [reset_all_bookings, List.mem_map] at hs'
      obtain ⟨s, hs, rfl⟩ := hs'
      simp [reset_all_bookings]

/-- C5 witness: the state after one successful booking of V1 is reachable
and satisfies the occupancy invariant. -/
theorem C5_witness :
    Reach exampleBookedState ∧ OccupancyInvariant exampleBookedState := by
  have hr : Reach exampleBookedState :=
    Reach.book "vip" ["V1"] (some 1) 518 "R1TESTREFERENCE1" 0 Reach.init
      (show _ = .ok "Successfully booked 1 slots" 1 500 "R1TESTREFERENCE1" by decide)
  exact ⟨hr, C5_occupancy_invariant _ hr⟩

/-- C4: when every requested name resolves to a slot of the given tier and
at least one resolved slot is occupied, `book_slots` fails with the
already-booked error whose message lists the occupied requested slots, that
list contains every conflicting requested slot (not just the first), and
the state is unchanged. -/
theorem C4_conflict_lists_every_slot (st : DBState) (tier : String) (names : List String)
    (uid : Option Nat) (amt : Int) (ref : String) (time : Nat)
    (hres : ∀ n ∈ names, ∃ s ∈ st.slots, s.slot_name = n ∧ s.slot_type = tier)
    (hocc : ∃ s ∈ st.slots, s.slot_name ∈ names ∧ s.slot_type = tier ∧ s.is_booked = true) :
    book_slots st tier names uid amt ref time =
      (.err ("Slots already booked: " ++
        String.intercalate ", " (alreadyBookedNames st tier names)), st) ∧
    ∀ s ∈ st.slots, s.slot_name ∈ names → s.slot_type = tier → s.is_booked = true →
      s.slot_name ∈ alreadyBookedNames st tier names := by
  have hlist : ∀ s ∈ st.slots, s.slot_name ∈ names → s.slot_type = tier →
      s.is_booked = true → s.slot_name ∈ alreadyBookedNames st tier names := by
    intro s hs hn ht hb
    rw [alreadyBookedNames]
    refine List.mem_map.mpr ⟨s, List.mem_filter.mpr ⟨hs, ?_⟩, rfl⟩
    rw [Bool.and_eq_true, Bool.and_eq_true]
    exact ⟨⟨List.elem_iff.mpr hn, beq_iff_eq.mpr ht⟩, hb⟩
  obtain ⟨s0, hs0, hn0, ht0, hb0⟩ := hocc
  have hne : ¬ names.isEmpty = true := by
    cases names with
    | nil => exact absurd hn0 (List.not_mem_nil _)
    | cons a l => simp
  have habne : ¬ (alreadyBookedNames st tier names).isEmpty = true := by
    intro hempty
    rw [List.isEmpty_iff] at hempty
    have hmem := hlist s0 hs0 hn0 ht0 hb0
    rw [hempty] at hmem
    exact List.not_mem_nil _ hmem
  refine ⟨?_, hlist⟩
  rw [book_slots, if_neg hne, if_pos habne]

/-- C4 witness: on the state with V1 booked, requesting `["V1", "V2"]` as
vip fails with the already-booked error, the conflict list contains every
occupied requested slot, and the state is unchanged. -/
theorem C4_witness :
    (∀ n ∈ (["V1", "V2"] : List String), ∃ s ∈ exampleBookedState.slots,
        s.slot_name = n ∧ s.slot_type = "vip") ∧
    (∃ s ∈ exampleBookedState.slots, s.slot_name ∈ (["V1", "V2"] : List String) ∧
        s.slot_type = "vip" ∧ s.is_booked = true) ∧
    book_slots exampleBookedState "vip" ["V1", "V2"] (some 1) 1018 "BB12CD34EF56AB78" 0 =
      (.err ("Slots already booked: " ++
        String.intercalate ", " (alreadyBookedNames exampleBookedState "vip" ["V1", "V2"])),
       exampleBookedState) := by
  refine ⟨by decide, by decide, ?_⟩
  exact (C4_conflict_lists_every_slot exampleBookedState "vip" ["V1", "V2"] (some 1) 1018
    "BB12CD34EF56AB78" 0 (by decide) (by decide)).1

/-- Characterization of the status-building fold: each tier's lists collect
the names of that tier's rows in traversal order, prices unchanged. -/
theorem foldl_addStatusRow_spec (l : List Slot) :
    ∀ acc : ParkingStatus,
      l.foldl addStatusRow acc =
        ⟨⟨acc.vip.price,
          acc.vip.slots ++ (l.filter (fun s => s.slot_type == "vip")).map (fun s => s.slot_name),
          acc.vip.booked ++
            (l.filter (fun s => s.slot_type == "vip" && s.is_booked)).map (fun s => s.slot_name)⟩,
         ⟨acc.executive.price,
          acc.executive.slots ++
            (l.filter (fun s => s.slot_type == "executive")).map (fun s => s.slot_name),
          acc.executive.booked ++
            (l.filter (fun s => s.slot_type == "executive" && s.is_booked)).map
              (fun s => s.slot_name)⟩,
         ⟨acc.normal.price,
          acc.normal.slots ++ (l.filter (fun s => s.slot_type == "normal")).map (fun s => s.slot_name),
          acc.normal.booked ++
            (l.filter (fun s => s.slot_type == "normal" && s.is_booked)).map
              (fun s => s.slot_name)⟩⟩ := by
  induction l with
  | nil => intro acc; simp
  | cons s rest ih =>
      intro acc
      rw [List.foldl_cons, ih, addStatusRow]
      by_cases h1 : s.slot_type = "vip"
      · have e1 : (s.slot_type == "vip") = true := beq_iff_eq.mpr h1
        have e2 : (s.slot_type == "executive") = false := by rw [h1]; rfl
        have e3 : (s.slot_type == "normal") = false := by rw [h1]; rfl
        cases hb : s.is_booked <;>
          simp [List.filter_cons, e1, e2, e3, hb]
      · by_cases h2 : s.slot_type = "executive"
        · have e1 : (s.slot_type == "vip") = false := by rw [h2]; rfl
          have e2 : (s.slot_type == "executive") = true := beq_iff_eq.mpr h2
          have e3 : (s.slot_type == "normal") = false := by rw [h2]; rfl
          cases hb : s.is_booked <;>
            simp [List.filter_cons, e1, e2, e3, hb]
        · by_cases h3 : s.slot_type = "normal"
          · have e1 : (s.slot_type == "vip") = false := by rw [h3]; rfl
            have e2 : (s.slot_type == "executive") = false := by rw [h3]; rfl
            have e3 : (s.slot_type == "normal") = true := beq_iff_eq.mpr h3
            cases hb : s.is_booked <;>
              simp [List.filter_cons, e1, e2, e3, hb]
          · have e1 : (s.slot_type == "vip") = false := beq_eq_false_iff_ne.mpr h1
            have e2 : (s.slot_type == "executive") = false := beq_eq_false_iff_ne.mpr h2
            have e3 : (s.slot_type == "normal") = false := beq_eq_false_iff_ne.mpr h3
            simp [List.filter_cons, e1, e2, e3]

/-- The same slot rows, sorted two different ways, filtered and projected to
names, are permutations of each other. -/
theorem status_filter_perm (st : DBState) (p : Slot → Bool) :
    (((List.insertionSort slotOrderByName st.slots).filter p).map (fun s => s.slot_name)).Perm
      (((List.insertionSort slotOrderById st.slots).filter p).map (fun s => s.slot_name)) :=
  List.Perm.map _ (List.Perm.filter _
    ((List.perm_insertionSort _ _).trans (List.perm_insertionSort _ _).symm))

/-- C8 counterexample: on the freshly initialized catalog the two backends
return different status snapshots — SQLite orders each tier's slot list by
slot id (`V1..V10`) while PostgreSQL orders by slot name
(`V1, V10, V2, ...`). -/
theorem C8_counterexample_status_order :
    pg_get_parking_status init_db ≠ get_parking_status init_db := by
  decide

/-- C8 amended: the two backends return equal results for book, reset,
stats, user-booking and reference lookups on every pair of equal states and
inputs; their status snapshots agree on tier prices and contain the same
slot names and booked names per tier, but order those lists differently
(SQLite by slot id, PostgreSQL by slot name), so the snapshots agree only up
to per-tier reordering. -/
theorem C8_amended_backends_agree (st : DBState) (tier : String) (names : List String)
    (uid : Option Nat) (amt : Int) (ref : String) (time : Nat) (u : Nat) (bref : String) :
    pg_book_slots st tier names uid amt ref time = book_slots st tier names uid amt ref time ∧
    pg_reset_all_bookings st = reset_all_bookings st ∧
    pg_get_booking_stats st tier = get_booking_stats st tier ∧
    pg_get_user_bookings st u = get_user_bookings st u ∧
    pg_get_booking_by_reference st bref = get_booking_by_reference st bref ∧
    (pg_get_parking_status st).vip.price = (get_parking_status st).vip.price ∧
    (pg_get_parking_status st).executive.price = (get_parking_status st).executive.price ∧
    (pg_get_parking_status st).normal.price = (get_parking_status st).normal.price ∧
    (pg_get_parking_status st).vip.slots.Perm (get_parking_status st).vip.slots ∧
    (pg_get_parking_status st).executive.slots.Perm (get_parking_status st).executive.slots ∧
    (pg_get_parking_status st).normal.slots.Perm (get_parking_status st).normal.slots ∧
    (pg_get_parking_status st).vip.booked.Perm (get_parking_status st).vip.booked ∧
    (pg_get_parking_status st).executive.booked.Perm (get_parking_status st).executive.booked ∧
    (pg_get_parking_status st).normal.booked.Perm (get_parking_status st).normal.booked := by
  rw [pg_get_parking_status, get_parking_status, foldl_addStatusRow_spec,
    foldl_addStatusRow_spec]
  refine ⟨rfl, rfl, rfl, rfl, rfl, rfl, rfl, rfl, ?_, ?_, ?_, ?_, ?_, ?_⟩ <;>
    simp only [emptyStatus, List.nil_append] <;>
    exact status_filter_perm st _

/-- Adding a row preserves the group references when its reference is
already present, and appends the new reference otherwise. -/
theorem addRowToGroups_refs (acc : List UserBooking) (r : Booking × Slot) :
    (addRowToGroups acc r).map (fun g => g.booking_reference) =
      if acc.any (fun g => g.booking_reference == r.1.booking_reference)
      then acc.map (fun g => g.booking_reference)
      else acc.map (fun g => g.booking_reference) ++ [r.1.booking_reference] := by
  rw [addRowToGroups]
  by_cases hc : acc.any (fun g => g.booking_reference == r.1.booking_reference) = true
  · rw [if_pos hc, if_pos hc, List.map_map]
    apply List.map_congr_left
    intro g _
    by_cases h : (g.booking_reference == r.1.booking_reference) = true <;>
      simp [h, Function.comp]
  · rw [if_neg hc, if_neg hc, List.map_append]
    rfl

/-- Adding a row preserves distinctness of the group references. -/
theorem addRowToGroups_refs_nodup (acc : List UserBooking) (r : Booking × Slot)
    (h : (acc.map (fun g => g.booking_reference)).Nodup) :
    ((addRowToGroups acc r).map (fun g => g.booking_reference)).Nodup := by
  rw [addRowToGroups_refs]
  by_cases hc : acc.any (fun g => g.booking_reference == r.1.booking_reference) = true
  · rwa [if_pos hc]
  · rw [if_neg hc]
    refine List.Nodup.append h (List.nodup_singleton _) ?_
    intro x hx hx2
    rw [List.mem_singleton] at hx2
    subst hx2
    obtain ⟨g, hg, hgr⟩ := List.mem_map.mp hx
    exact hc (List.any_eq_true.mpr ⟨g, hg, beq_iff_eq.mpr hgr⟩)

/-- The grouping fold keeps the group references distinct. -/
theorem foldl_addRowToGroups_refs_nodup (rows : List (Booking × Slot)) :
    ∀ acc : List UserBooking, (acc.map (fun g => g.booking_reference)).Nodup →
      ((rows.foldl addRowToGroups acc).map (fun g => g.booking_reference)).Nodup := by
  induction rows with
  | nil => intro acc h; exact h
  | cons r rest ih =>
      intro acc h
      rw [List.foldl_cons]
      exact ih _ (addRowToGroups_refs_nodup acc r h)

/-- With distinct references, looking up a member group's reference finds
exactly that group's slots. -/
theorem slotsOf_self (g : UserBooking) :
    ∀ acc : List UserBooking, (acc.map (fun g => g.booking_reference)).Nodup →
      g ∈ acc → slotsOf acc g.booking_reference = g.slots := by
  intro acc
  induction acc with
  | nil => intro _ hg; exact absurd hg (List.not_mem_nil _)
  | cons h0 t ih =>
      intro hnd hg
      rw [List.map_cons, List.nodup_cons] at hnd
      rcases List.mem_cons.mp hg with rfl | hgt
      · rw [slotsOf, @List.find?_cons_of_pos _
          (fun g1 => g1.booking_reference == g.booking_reference) g t (beq_self_eq_true _)]
        rfl
      · have hne : ¬ (h0.booking_reference == g.booking_reference) = true := by
          intro hbe
          rw [beq_iff_eq] at hbe
          exact hnd.1 (hbe ▸ List.mem_map.mpr ⟨g, hgt, rfl⟩)
        rw [slotsOf, @List.find?_cons_of_neg _
          (fun g1 => g1.booking_reference == g.booking_reference) h0 t hne]
        exact ih hnd.2 hgt

/-- Effect of adding a row on the stored slot list of any reference. -/
theorem slotsOf_addRowToGroups (acc : List UserBooking) (r : Booking × Slot) (ρ : String) :
    slotsOf (addRowToGroups acc r) ρ =
      slotsOf acc ρ ++ (if r.1.booking_reference == ρ then [rowInfo r] else []) := by
  rw [addRowToGroups]
  by_cases hc : acc.any (fun g => g.booking_reference == r.1.booking_reference) = true
  · rw [if_pos hc]
    rw [slotsOf, List.find?_map]
    have hpred : ((fun g : UserBooking => g.booking_reference == ρ) ∘
        (fun g => if g.booking_reference == r.1.booking_reference
                  then { g with slots := g.slots ++ [rowInfo r] } else g)) =
        (fun g : UserBooking => g.booking_reference == ρ) := by
      funext g
      by_cases h : g.booking_reference = r.1.booking_reference <;> simp [h]
    rw [hpred]
    cases hfind : acc.find? (fun g => g.booking_reference == ρ) with
    | none =>
        have hne : ¬ (r.1.booking_reference == ρ) = true := by
          intro hbe
          rw [beq_iff_eq] at hbe
          obtain ⟨g, hg, hgr⟩ := List.any_eq_true.mp hc
          rw [beq_iff_eq] at hgr
          have hgone := List.find?_eq_none.mp hfind g hg
          rw [hgr, hbe] at hgone
          exact hgone (beq_self_eq_true _)
        rw [slotsOf, hfind, if_neg hne]
        rfl
    | some g0 =>
        have hp : (g0.booking_reference == ρ) = true :=
          @List.find?_some UserBooking (fun g => g.booking_reference == ρ) g0 acc hfind
        have hg0 : g0.booking_reference = ρ := beq_iff_eq.mp hp
        rw [slotsOf, hfind]
        by_cases h : (g0.booking_reference == r.1.booking_reference) = true
        · have hrρ : (r.1.booking_reference == ρ) = true :=
            beq_iff_eq.mpr ((beq_iff_eq.mp h) ▸ hg0)
          rw [if_pos hrρ]
          simp [beq_iff_eq.mp h]
        · have hrρ : ¬ (r.1.booking_reference == ρ) = true := by
            intro hbe
            exact h (beq_iff_eq.mpr (hg0.trans (beq_iff_eq.mp hbe).symm))
          rw [if_neg hrρ]
          have hne2 : g0.booking_reference ≠ r.1.booking_reference :=
            fun e => h (beq_iff_eq.mpr e)
          simp [hne2]
  · rw [if_neg hc]
    rw [slotsOf, List.find?_append]
    by_cases hρ : (r.1.booking_reference == ρ) = true
    · have hnone : acc.find? (fun g => g.booking_reference == ρ) = none := by
        rw [List.find?_eq_none]
        intro g hg hbe
        apply hc
        refine List.any_eq_true.mpr ⟨g, hg, ?_⟩
        rw [beq_iff_eq] at hbe ⊢
        exact hbe.trans (beq_iff_eq.mp hρ).symm
      rw [hnone, slotsOf, hnone, if_pos hρ]
      rw [@List.find?_cons_of_pos UserBooking (fun g => g.booking_reference == ρ)
        ⟨r.1.booking_reference, r.1.booking_time, r.1.total_amount, r.1.status,
         [rowInfo r]⟩ [] hρ]
      rfl
    · rw [slotsOf, if_neg hρ, List.append_nil]
      rw [@List.find?_cons_of_neg UserBooking (fun g => g.booking_reference == ρ)
        ⟨r.1.booking_reference, r.1.booking_time, r.1.total_amount, r.1.status,
         [rowInfo r]⟩ [] hρ, List.find?_nil]
      cases hfind : acc.find? (fun g => g.booking_reference == ρ) <;> rfl

/-- The grouping fold characterized: each produced group's slot list is what
the accumulator already stored for its reference followed by the infos of
all processed rows with that reference, in order. -/
theorem foldl_addRowToGroups_slots (rows : List (Booking × Slot)) :
    ∀ acc : List UserBooking, (acc.map (fun g => g.booking_reference)).Nodup →
      ∀ g ∈ rows.foldl addRowToGroups acc,
        g.slots = slotsOf acc g.booking_reference ++
          (rows.filter (fun r => r.1.booking_reference == g.booking_reference)).map rowInfo := by
  induction rows with
  | nil =>
      intro acc hnd g hg
      rw [List.foldl_nil] at hg
      rw [List.filter_nil, List.map_nil, List.append_nil]
      exact (slotsOf_self g acc hnd hg).symm
  | cons r rest ih =>
      intro acc hnd g hg
      rw [List.foldl_cons] at hg
      have h2 := ih (addRowToGroups acc r) (addRowToGroups_refs_nodup acc r hnd) g hg
      rw [h2, slotsOf_addRowToGroups, List.filter_cons]
      by_cases hρ : (r.1.booking_reference == g.booking_reference) = true
      · rw [if_pos hρ, if_pos hρ, List.map_cons, List.append_assoc]
        rfl
      · rw [if_neg hρ, if_neg hρ, List.append_nil]

/-- References present in the accumulator survive the grouping fold. -/
theorem foldl_addRowToGroups_refs_mono (rows : List (Booking × Slot)) :
    ∀ (acc : List UserBooking) (ρ : String),
      ρ ∈ acc.map (fun g => g.booking_reference) →
      ρ ∈ (rows.foldl addRowToGroups acc).map (fun g => g.booking_reference) := by
  induction rows with
  | nil => intro acc ρ h; exact h
  | cons r rest ih =>
      intro acc ρ h
      rw [List.foldl_cons]
      apply ih
      rw [addRowToGroups_refs]
      by_cases hc : acc.any (fun g => g.booking_reference == r.1.booking_reference) = true
      · rwa [if_pos hc]
      · rw [if_neg hc]
        exact List.mem_append_left _ h

/-- Every processed row's reference appears among the produced groups. -/
theorem foldl_addRowToGroups_complete (rows : List (Booking × Slot)) :
    ∀ acc : List UserBooking, ∀ r ∈ rows, r.1.booking_reference ∈
      (rows.foldl addRowToGroups acc).map (fun g => g.booking_reference) := by
  induction rows with
  | nil => intro acc r hr; exact absurd hr (List.not_mem_nil _)
  | cons r0 rest ih =>
      intro acc r hr
      rw [List.foldl_cons]
      rcases List.mem_cons.mp hr with rfl | hr'
      · apply foldl_addRowToGroups_refs_mono
        rw [addRowToGroups_refs]
        by_cases hc : acc.any (fun g => g.booking_reference == r.1.booking_reference) = true
        · rw [if_pos hc]
          obtain ⟨g, hg, hgr⟩ := List.any_eq_true.mp hc
          rw [beq_iff_eq] at hgr
          exact hgr ▸ List.mem_map.mpr ⟨g, hg, rfl⟩
        · rw [if_neg hc]
          exact List.mem_append_right _ (List.mem_singleton.mpr rfl)
      · exact ih _ r hr'

/-- The grouping fold on time-sorted rows produces groups in non-increasing
`booking_time` order. -/
theorem foldl_addRowToGroups_pairwise (rows : List (Booking × Slot)) :
    ∀ acc : List UserBooking,
      rows.Pairwise timeDescOrder →
      acc.Pairwise (fun g h => h.booking_time ≤ g.booking_time) →
      (∀ g ∈ acc, ∀ r ∈ rows, r.1.booking_time ≤ g.booking_time) →
      (rows.foldl addRowToGroups acc).Pairwise
        (fun g h => h.booking_time ≤ g.booking_time) := by
  induction rows with
  | nil => intro acc _ hacc _; exact hacc
  | cons r rest ih =>
      intro acc hrows hacc hcross
      rw [List.pairwise_cons] at hrows
      rw [List.foldl_cons]
      apply ih
      · exact hrows.2
      · rw [addRowToGroups]
        by_cases hc : acc.any (fun g => g.booking_reference == r.1.booking_reference) = true
        · rw [if_pos hc]
          refine List.Pairwise.map _ ?_ hacc
          intro g h hgh
          by_cases h1 : (g.booking_reference == r.1.booking_reference) = true <;>
            by_cases h2 : (h.booking_reference == r.1.booking_reference) = true <;>
            simp [h1, h2, hgh]
        · rw [if_neg hc]
          rw [List.pairwise_append]
          refine ⟨hacc, List.pairwise_singleton _ _, ?_⟩
          intro g hg g' hg'
          rw [List.mem_singleton] at hg'
          subst hg'
          exact hcross g hg r (List.mem_cons_self _ _)
      · intro g hg r' hr'
        rw [addRowToGroups] at hg
        by_cases hc : acc.any (fun g => g.booking_reference == r.1.booking_reference) = true
        · rw [if_pos hc] at hg
          obtain ⟨g0, hg0, rfl⟩ := List.mem_map.mp hg
          have hle := hcross g0 hg0 r' (List.mem_cons_of_mem _ hr')
          by_cases h1 : (g0.booking_reference == r.1.booking_reference) = true <;>
            simp [h1, hle]
        · rw [if_neg hc] at hg
          rcases List.mem_append.mp hg with hg' | hg'
          · exact hcross _ hg' r' (List.mem_cons_of_mem _ hr')
          · rw [List.mem_singleton] at hg'
            subst hg'
            exact hrows.1 r' hr'

/-- C9: `get_user_bookings` returns one entry per booking reference (never
one per slot row), ordered newest first by `booking_time`, each entry's slot
list containing exactly the user's joined rows with that reference, and no
row is dropped. -/
theorem C9_user_bookings_grouped (st : DBState) (uid : Nat) :
    ((get_user_bookings st uid).map (fun g => g.booking_reference)).Nodup ∧
    (get_user_bookings st uid).Pairwise
      (fun g h => h.booking_time ≤ g.booking_time) ∧
    (∀ g ∈ get_user_bookings st uid,
      g.slots.Perm (((userRows st uid).filter
        (fun r => r.1.booking_reference == g.booking_reference)).map rowInfo)) ∧
    (∀ r ∈ userRows st uid, ∃ g ∈ get_user_bookings st uid,
      g.booking_reference = r.1.booking_reference) := by
  simp only [get_user_bookings]
  refine ⟨?_, ?_, ?_, ?_⟩
  · exact foldl_addRowToGroups_refs_nodup _ _ (by simp)
  · apply foldl_addRowToGroups_pairwise
    · exact List.sorted_insertionSort _ _
    · exact List.Pairwise.nil
    · intro g hg
      exact absurd hg (List.not_mem_nil _)
  · intro g hg
    have h := foldl_addRowToGroups_slots _ _ (by simp) g hg
    rw [h]
    simp only [slotsOf, List.find?_nil, Option.map_none', Option.getD_none, List.nil_append]
    exact List.Perm.map _ (List.Perm.filter _ (List.perm_insertionSort _ _))
  · intro r hr
    have hr' : r ∈ List.insertionSort timeDescOrder (userRows st uid) :=
      (List.perm_insertionSort _ _).mem_iff.mpr hr
    have h := foldl_addRowToGroups_complete _ [] r hr'
    obtain ⟨g, hg, hgr⟩ := List.mem_map.mp h
    exact ⟨g, hg, hgr⟩

end Parking
